import Mathlib

deriving instance DecidableEq for Except

/-!
Verification of the pyzohocrm client library (src/pyzohocrm/api.py,
src/pyzohocrm/token_manager.py, src/pyzohocrm/utils.py) against its
natural-language specification.

The Python code is shallowly embedded:

* An HTTP exchange is modelled by a function from the issued request to the
  response; each API-client method takes such a function as its first
  argument, builds the request exactly as the source does, and either returns
  the raw response or returns the Python exception the source would raise
  before any request is issued.
* Python truthiness of optional string parameters is modelled by `truthy`;
  interpolation of an optional value into an f-string is modelled by `pyStr`.
* Wall-clock time (datetime) is modelled as a Nat count of microseconds, the
  resolution of datetime.now(). The persisted timestamp format
  "%Y-%m-%d %H:%M:%S" has second resolution; strftime and strptime are
  mutually inverse between seconds values and strings of that exact format,
  so a string in the expiry field of the token file is modelled by the
  seconds value it denotes (constructor ExpiryVal.ts) when it is of that
  format, and by ExpiryVal.malformed otherwise (any value on which strptime
  raises).
* The token file is modelled by what json.load sees: missing file, invalid
  JSON, valid JSON that is not an object, or an object with optional
  token/expiry entries.
* Mutation of a TokenManager object is modelled by explicit state passing;
  an operation that can raise returns the exception together with the state
  and file as they stand when the exception escapes, since Python mutations
  made before a raise persist.
-/

namespace PyZohoCrm

/-- A Python exception, by class; the payload is the message or key. -/
inductive PyError where
  | valueError (msg : String)
  | keyError (key : String)
  | attributeError (msg : String)
  | exception (msg : String)
deriving DecidableEq, Repr

/-- How an optional string parameter renders inside a Python f-string:
None prints as the four characters None. -/
def pyStr : Option String → String
  | none => "None"
  | some s => s

/-- Python truthiness of an optional string: None and the empty string are
falsy, every other string is truthy. -/
def truthy : Option String → Bool
  | none => false
  | some s => s ≠ ""

/-- Python str.lower(), character by character (the recognized domain names
are ASCII). -/
def pyLower (s : String) : String :=
  String.mk (s.data.map Char.toLower)

/-- The request headers dict built by utils.get_header: a single
Authorization entry. -/
structure Header where
  authorization : String
deriving DecidableEq, Repr

/-- utils.get_header: returns the headers for the Zoho API request. -/
def get_header (token : Option String) : Header :=
  { authorization := "Zoho-oauthtoken " ++ pyStr token }

/-- A record dict supplied by the caller (opaque string fields). -/
structure RecordData where
  fields : List (String × String)
deriving DecidableEq, Repr

/-- The JSON body of a request: either the record dict itself (create_record,
update_record) or the envelope with the record in a one-element "data" list
(patch_record). -/
inductive JsonBody where
  | record (d : RecordData)
  | dataList (d : RecordData)
deriving DecidableEq, Repr

/-- An HTTP request as assembled by ZohoApi._make_request: method, url, the
headers from get_header, and the json=, data= and files= keyword payloads.
A files entry is identified by the path of the opened file. -/
structure Request where
  method : String
  url : String
  headers : Header
  json : Option JsonBody
  data : Option (List (String × String))
  files : Option (List (String × String))
deriving DecidableEq, Repr

/-- An HTTP response as the caller sees it: status code and body text. -/
structure HttpResponse where
  status_code : Nat
  text : String
deriving DecidableEq, Repr

/-- The network: what response comes back for each issued request. -/
def Net : Type := Request → HttpResponse

/-- ZohoApi._make_request: issues the request with the headers from
get_header and returns the response object unchanged (raise_for_status is
commented out in the source). -/
def make_request (net : Net) (method url : String) (json : Option JsonBody)
    (data files : Option (List (String × String))) (token : Option String) :
    HttpResponse :=
  net { method := method, url := url, headers := get_header token,
        json := json, data := data, files := files }

/-- ZohoApi.create_record: POST base_url/moduleName with the record as JSON
body. -/
def create_record (net : Net) (base_url moduleName : String) (data : RecordData)
    (token : Option String) : Except PyError HttpResponse :=
  .ok (make_request net "POST" (base_url ++ "/" ++ moduleName)
        (some (.record data)) none none token)

/-- ZohoApi.read_record: GET base_url/moduleName, with /id appended when id
is truthy. -/
def read_record (net : Net) (base_url moduleName : String) (id : Option String)
    (token : Option String) : Except PyError HttpResponse :=
  let url := base_url ++ "/" ++ moduleName
  let url := if truthy id then url ++ "/" ++ pyStr id else url
  .ok (make_request net "GET" url none none none token)

/-- ZohoApi.fetch_module_data: GET base_url/moduleName. -/
def fetch_module_data (net : Net) (base_url moduleName : String)
    (token : Option String) : Except PyError HttpResponse :=
  .ok (make_request net "GET" (base_url ++ "/" ++ moduleName) none none none token)

/-- ZohoApi.update_record: PUT base_url/moduleName/id with the record as
JSON body. The id is interpolated into the URL without any check. -/
def update_record (net : Net) (base_url moduleName id : String)
    (data : RecordData) (token : Option String) : Except PyError HttpResponse :=
  .ok (make_request net "PUT" (base_url ++ "/" ++ moduleName ++ "/" ++ id)
        (some (.record data)) none none token)

/-- ZohoApi.patch_record: PATCH base_url/moduleName/id with JSON body
wrapping the record in a one-element "data" list. No check on id. -/
def patch_record (net : Net) (base_url moduleName id : String)
    (data : RecordData) (token : Option String) : Except PyError HttpResponse :=
  .ok (make_request net "PATCH" (base_url ++ "/" ++ moduleName ++ "/" ++ id)
        (some (.dataList data)) none none token)

/-- ZohoApi.delete_record: DELETE base_url/moduleName/id. No check on id. -/
def delete_record (net : Net) (base_url moduleName id : String)
    (token : Option String) : Except PyError HttpResponse :=
  .ok (make_request net "DELETE" (base_url ++ "/" ++ moduleName ++ "/" ++ id)
        none none none token)

/-- ZohoApi.attach_file: POST base_url/moduleName/record_id/Attachments.
A truthy file_path wins: multipart upload of the opened file (modelled by its
path). Otherwise a truthy file_url is sent as form data. Otherwise
ValueError. -/
def attach_file (net : Net) (base_url moduleName record_id : String)
    (file_path file_url : Option String) (token : Option String) :
    Except PyError HttpResponse :=
  let url := base_url ++ "/" ++ moduleName ++ "/" ++ record_id ++ "/Attachments"
  if truthy file_path then
    .ok (make_request net "POST" url none none
          (some [("file", pyStr file_path)]) token)
  else if truthy file_url then
    .ok (make_request net "POST" url none
          (some [("attachmentUrl", pyStr file_url)]) none token)
  else
    .error (.valueError "Either file_path or file_url must be provided.")

/-- ZohoApi.fetch_file: validates record_id and token, then GET of all
attachments, or of one attachment after validating file_id when fetch_all is
false. -/
def fetch_file (net : Net) (base_url moduleName : String)
    (record_id file_id token : Option String) (fetch_all : Bool) :
    Except PyError HttpResponse :=
  if ¬ truthy record_id then .error (.valueError "record_id is required.")
  else if ¬ truthy token then .error (.valueError "token is required.")
  else if fetch_all then
    .ok (make_request net "GET"
          (base_url ++ "/" ++ moduleName ++ "/" ++ pyStr record_id ++ "/Attachments")
          none none none token)
  else if ¬ truthy file_id then
    .error (.valueError "file_id must be provided when fetch_all is False.")
  else
    .ok (make_request net "GET"
          (base_url ++ "/" ++ moduleName ++ "/" ++ pyStr record_id
            ++ "/Attachments/" ++ pyStr file_id)
          none none none token)

/-- ZohoApi.fetch_related_list: validates record_id, token and name, then
GET base_url/moduleName/record_id/name. -/
def fetch_related_list (net : Net) (base_url moduleName : String)
    (record_id token name : Option String) : Except PyError HttpResponse :=
  if ¬ truthy record_id then .error (.valueError "record_id is required.")
  else if ¬ truthy token then .error (.valueError "token is required.")
  else if ¬ truthy name then .error (.valueError "name is required.")
  else
    .ok (make_request net "GET"
          (base_url ++ "/" ++ moduleName ++ "/" ++ pyStr record_id ++ "/" ++ pyStr name)
          none none none token)

/-- Microseconds per second; datetime values are Nat microsecond counts. -/
def usPerSec : Nat := 1000000

/-- timedelta(minutes=50) in microseconds. -/
def fiftyMinutes : Nat := 50 * 60 * usPerSec

/-- A JSON string value standing in the expiry field of the token file:
a string of the exact "%Y-%m-%d %H:%M:%S" format is modelled by the seconds
value it denotes (the format is injective at second resolution and strptime
inverts strftime on it); malformed covers every other value, on which
strptime raises. -/
inductive ExpiryVal where
  | ts (secs : Nat)
  | malformed (s : String)
deriving DecidableEq, Repr

/-- Python truthiness of the raw expiry value: a format string is nonempty,
hence truthy; a malformed value is falsy exactly when it is the empty
string. -/
def expiryTruthy : ExpiryVal → Bool
  | .ts _ => true
  | .malformed s => s ≠ ""

/-- The token file as json.load sees it: missing at the path, present but
not valid JSON, valid JSON that is not an object (so .get raises
AttributeError), or an object with its optional token and expiry entries. -/
inductive TokenFile where
  | missing
  | invalid
  | nonObject
  | obj (token : Option String) (expiry : Option ExpiryVal)
deriving DecidableEq, Repr

/-- A TokenManager instance: credential fields fixed at construction, plus
the mutable in-memory token cache. Field names follow the source. -/
structure TokenManager where
  domain_url : String
  refresh_token : String
  client_id : String
  client_secret : String
  grant_type : String
  token_path : String
  _token : Option String
  _expiry : Option Nat
deriving DecidableEq, Repr

/-- The zoho_urls dict of TokenManager._get_domain_url. -/
def zoho_urls : List (String × String) :=
  [("united states", "https://accounts.zoho.com/"),
   ("europe", "https://accounts.zoho.eu/"),
   ("india", "https://accounts.zoho.in/"),
   ("australia", "https://accounts.zoho.com.au/"),
   ("japan", "https://accounts.zoho.jp/"),
   ("canada", "https://accounts.zohocloud.ca/")]

/-- TokenManager._get_domain_url: dict lookup; a missing key raises
KeyError. -/
def get_domain_url (domain_name : String) : Except PyError String :=
  match zoho_urls.lookup domain_name with
  | some url => .ok url
  | none => .error (.keyError domain_name)

/-- os.path.join for a directory and a file name: no separator is inserted
after a directory already ending in one. -/
def path_join (dir filename : String) : String :=
  if dir.data.getLast? = some '/' then dir ++ filename
  else dir ++ "/" ++ filename

/-- TokenManager._load_token_from_file. A missing file is skipped; invalid
JSON raises JSONDecodeError, which the except clause catches, resetting
token and expiry to None; non-object JSON raises AttributeError at
data.get, which is not in the caught tuple; an object sets the token, then
parses a truthy expiry value with strptime, whose ValueError on a malformed
value is also not caught. The returned state is the object as it stands
when the call returns or the exception escapes. -/
def load_token_from_file (file : TokenFile) (st : TokenManager) :
    Except PyError Unit × TokenManager :=
  match file with
  | .missing => (.ok (), st)
  | .invalid => (.ok (), { st with _token := none, _expiry := none })
  | .nonObject => (.error (.attributeError "json value has no attribute get"), st)
  | .obj tok exp =>
    let st1 := { st with _token := tok }
    match exp with
    | none => (.ok (), st1)
    | some e =>
      if expiryTruthy e then
        match e with
        | .ts secs => (.ok (), { st1 with _expiry := some (secs * usPerSec) })
        | .malformed s =>
          (.error (.valueError ("time data " ++ s ++ " does not match format")), st1)
      else (.ok (), st1)

/-- TokenManager._save_token_to_file: overwrites the file with the token
and the expiry rendered by strftime at second resolution. When the expiry
is None, strftime on None raises AttributeError after open(path, "w") has
already truncated the file, leaving it empty, which json.load later rejects
as invalid. -/
def save_token_to_file (st : TokenManager) (_file : TokenFile) :
    Except PyError Unit × TokenFile :=
  match st._expiry with
  | none => (.error (.attributeError "NoneType has no attribute strftime"), .invalid)
  | some e => (.ok (), .obj st._token (some (.ts (e / usPerSec))))

/-- The OAuth refresh response: status code, the access_token entry of the
JSON body when the body is an object carrying one, and the raw text. -/
structure OAuthResponse where
  status_code : Nat
  access_token : Option String
  text : String
deriving DecidableEq, Repr

/-- TokenManager._refresh_token, given the response the OAuth endpoint
returns and the current time. On status 200 the token is set from the
body (KeyError when the body lacks access_token), the expiry is set to
now plus fifty minutes, and the file is rewritten. On any other status an
Exception carrying the status code and response text is raised and neither
the state nor the file changes. -/
def refresh_token_call (st : TokenManager) (file : TokenFile)
    (resp : OAuthResponse) (now : Nat) :
    Except PyError Unit × TokenManager × TokenFile :=
  if resp.status_code = 200 then
    match resp.access_token with
    | none => (.error (.keyError "access_token"), st, file)
    | some tok =>
      let st1 := { st with _token := some tok, _expiry := some (now + fiftyMinutes) }
      match save_token_to_file st1 file with
      | (.ok _, file1) => (.ok (), st1, file1)
      | (.error e, file1) => (.error e, st1, file1)
  else
    (.error (.exception ("Failed to refresh token: "
        ++ toString resp.status_code ++ ", " ++ resp.text)), st, file)

/-- TokenManager._is_token_expired: true when no expiry is recorded or the
current time has reached it. -/
def is_token_expired (st : TokenManager) (now : Nat) : Bool :=
  match st._expiry with
  | none => true
  | some e => e ≤ now

/-- Result of get_access_token: the returned token or escaped exception,
the state and file afterwards, and whether the call entered the refresh
branch (hence made the OAuth network call). -/
structure GetTokenResult where
  result : Except PyError (Option String)
  st : TokenManager
  file : TokenFile
  refreshed : Bool
deriving DecidableEq, Repr

/-- TokenManager.get_access_token: refreshes when no token is cached or the
cached one is expired, then returns the in-memory token. -/
def get_access_token (st : TokenManager) (file : TokenFile)
    (resp : OAuthResponse) (now : Nat) : GetTokenResult :=
  if st._token.isNone || is_token_expired st now then
    match refresh_token_call st file resp now with
    | (.ok _, st1, file1) =>
      { result := .ok st1._token, st := st1, file := file1, refreshed := true }
    | (.error e, st1, file1) =>
      { result := .error e, st := st1, file := file1, refreshed := true }
  else
    { result := .ok st._token, st := st, file := file, refreshed := false }

/-- TokenManager.__init__: lowercases the domain name and resolves it
(KeyError escapes when unrecognized), stores the credential fields and the
joined token path, then warms the cache from the token file; an exception
escaping the load makes construction fail. -/
def TokenManager.construct (domain_name refresh_tok client_id client_secret
    grant_type token_dir token_filename : String) (file : TokenFile) :
    Except PyError TokenManager :=
  match get_domain_url (pyLower domain_name) with
  | .error e => .error e
  | .ok url =>
    let st0 : TokenManager :=
      { domain_url := url, refresh_token := refresh_tok, client_id := client_id,
        client_secret := client_secret, grant_type := grant_type,
        token_path := path_join token_dir token_filename,
        _token := none, _expiry := none }
    match load_token_from_file file st0 with
    | (.ok _, st1) => .ok st1
    | (.error e, _) => .error e

/-- One TokenManager operation after construction, with its external
inputs. -/
inductive TMOp where
  | getToken (resp : OAuthResponse) (now : Nat)
  | refresh (resp : OAuthResponse) (now : Nat)
  | checkExpired (now : Nat)
  | load
  | save
deriving Repr

/-- Effect of one operation on the manager state and the token file,
keeping the post-state also when the operation raises. -/
def tmStep : TokenManager × TokenFile → TMOp → TokenManager × TokenFile
  | (st, file), .getToken resp now =>
    let r := get_access_token st file resp now
    (r.st, r.file)
  | (st, file), .refresh resp now =>
    let r := refresh_token_call st file resp now
    (r.2.1, r.2.2)
  | (st, file), .checkExpired _ => (st, file)
  | (st, file), .load => ((load_token_from_file file st).2, file)
  | (st, file), .save => (st, (save_token_to_file st file).2)

/-- The construction-time credential fields of a manager, bundled for the
frame property. -/
def credentials (st : TokenManager) :
    String × String × String × String × String :=
  (st.domain_url, st.refresh_token, st.client_id, st.client_secret,
   st.grant_type)

/-- One API-client operation with its arguments, for quantifying over the
whole client surface. -/
inductive ApiOp where
  | create (moduleName : String) (d : RecordData) (token : Option String)
  | read (moduleName : String) (id : Option String) (token : Option String)
  | fetchModule (moduleName : String) (token : Option String)
  | update (moduleName id : String) (d : RecordData) (token : Option String)
  | patch (moduleName id : String) (d : RecordData) (token : Option String)
  | delete (moduleName id : String) (token : Option String)
  | attach (moduleName record_id : String) (file_path file_url token : Option String)
  | fetchFile (moduleName : String) (record_id file_id token : Option String)
      (fetch_all : Bool)
  | fetchRelated (moduleName : String) (record_id token name : Option String)
deriving Repr

/-- Dispatch an operation to the corresponding source method. -/
def apiRun (net : Net) (base_url : String) : ApiOp → Except PyError HttpResponse
  | .create m d tok => create_record net base_url m d tok
  | .read m id tok => read_record net base_url m id tok
  | .fetchModule m tok => fetch_module_data net base_url m tok
  | .update m id d tok => update_record net base_url m id d tok
  | .patch m id d tok => patch_record net base_url m id d tok
  | .delete m id tok => delete_record net base_url m id tok
  | .attach m rid fp fu tok => attach_file net base_url m rid fp fu tok
  | .fetchFile m rid fid tok fa => fetch_file net base_url m rid fid tok fa
  | .fetchRelated m rid tok name => fetch_related_list net base_url m rid tok name

/-- A request value, assembled without consulting the network. -/
def mkRequest (method url : String) (json : Option JsonBody)
    (data files : Option (List (String × String))) (token : Option String) :
    Request :=
  { method := method, url := url, headers := get_header token,
    json := json, data := data, files := files }

/-- The single request an operation issues, or the exception it raises
before issuing one. -/
def planOp (base_url : String) : ApiOp → Except PyError Request
  | .create m d tok =>
    .ok (mkRequest "POST" (base_url ++ "/" ++ m) (some (.record d)) none none tok)
  | .read m id tok =>
    .ok (mkRequest "GET"
      (if truthy id then base_url ++ "/" ++ m ++ "/" ++ pyStr id
       else base_url ++ "/" ++ m) none none none tok)
  | .fetchModule m tok =>
    .ok (mkRequest "GET" (base_url ++ "/" ++ m) none none none tok)
  | .update m id d tok =>
    .ok (mkRequest "PUT" (base_url ++ "/" ++ m ++ "/" ++ id)
      (some (.record d)) none none tok)
  | .patch m id d tok =>
    .ok (mkRequest "PATCH" (base_url ++ "/" ++ m ++ "/" ++ id)
      (some (.dataList d)) none none tok)
  | .delete m id tok =>
    .ok (mkRequest "DELETE" (base_url ++ "/" ++ m ++ "/" ++ id) none none none tok)
  | .attach m rid fp fu tok =>
    if truthy fp then
      .ok (mkRequest "POST" (base_url ++ "/" ++ m ++ "/" ++ rid ++ "/Attachments")
        none none (some [("file", pyStr fp)]) tok)
    else if truthy fu then
      .ok (mkRequest "POST" (base_url ++ "/" ++ m ++ "/" ++ rid ++ "/Attachments")
        none (some [("attachmentUrl", pyStr fu)]) none tok)
    else .error (.valueError "Either file_path or file_url must be provided.")
  | .fetchFile m rid fid tok fa =>
    if ¬ truthy rid then .error (.valueError "record_id is required.")
    else if ¬ truthy tok then .error (.valueError "token is required.")
    else if fa then
      .ok (mkRequest "GET"
        (base_url ++ "/" ++ m ++ "/" ++ pyStr rid ++ "/Attachments")
        none none none tok)
    else if ¬ truthy fid then
      .error (.valueError "file_id must be provided when fetch_all is False.")
    else
      .ok (mkRequest "GET"
        (base_url ++ "/" ++ m ++ "/" ++ pyStr rid ++ "/Attachments/" ++ pyStr fid)
        none none none tok)
  | .fetchRelated m rid tok name =>
    if ¬ truthy rid then .error (.valueError "record_id is required.")
    else if ¬ truthy tok then .error (.valueError "token is required.")
    else if ¬ truthy name then .error (.valueError "name is required.")
    else
      .ok (mkRequest "GET"
        (base_url ++ "/" ++ m ++ "/" ++ pyStr rid ++ "/" ++ pyStr name)
        none none none tok)

/-- A fixed network stub used by concrete witnesses. -/
def netSample : Net := fun _ => { status_code := 200, text := "ok" }

/-- A fixed record dict used by concrete witnesses. -/
def dSample : RecordData := { fields := [("Name", "x")] }

/-- A fixed manager state used by concrete witnesses. -/
def stSample : TokenManager :=
  { domain_url := "https://accounts.zoho.in/", refresh_token := "r",
    client_id := "c", client_secret := "s", grant_type := "g",
    token_path := "./token.json", _token := some "old", _expiry := some 7000000 }

/-- C10: read_record called with no record id issues exactly the same HTTP
request as fetch_module_data with the same module name and token — the same
method, URL, headers and body — so the two operations are observationally
equivalent for every network behaviour. -/
theorem read_record_no_id_equals_fetch_module_data (net : Net)
    (base_url moduleName : String) (token : Option String) :
    read_record net base_url moduleName none token =
      fetch_module_data net base_url moduleName token ∧
    planOp base_url (ApiOp.read moduleName none token) =
      planOp base_url (ApiOp.fetchModule moduleName token) := by
  exact ⟨rfl, rfl⟩

/-- C6: for every domain name whose lowercasing is in the fixed zoho_urls
table, construction succeeds and resolves domain_url to that region's fixed
authorization base URL; for every name whose lowercasing is outside the
table, construction fails with a KeyError (a LookupError subclass). -/
theorem construct_domain_resolution (domain_name refresh_tok cid csec gt :
    String) :
    (∀ url, zoho_urls.lookup (pyLower domain_name) = some url →
      TokenManager.construct domain_name refresh_tok cid csec gt
          "./" "token.json" .missing =
        .ok { domain_url := url, refresh_token := refresh_tok,
              client_id := cid, client_secret := csec, grant_type := gt,
              token_path := path_join "./" "token.json",
              _token := none, _expiry := none }) ∧
    (zoho_urls.lookup (pyLower domain_name) = none →
      TokenManager.construct domain_name refresh_tok cid csec gt
          "./" "token.json" .missing =
        .error (.keyError (pyLower domain_name))) := by
  constructor
  · intro url h
    simp [TokenManager.construct, get_domain_url, h, load_token_from_file]
  · intro h
    simp [TokenManager.construct, get_domain_url, h]

/-- Witness for C6: the mixed-case name EuRoPe resolves to the Europe URL
and the unrecognized name mars fails with KeyError. -/
theorem construct_domain_resolution_witness :
    TokenManager.construct "EuRoPe" "r" "c" "s" "g" "./" "token.json" .missing =
      .ok { domain_url := "https://accounts.zoho.eu/", refresh_token := "r",
            client_id := "c", client_secret := "s", grant_type := "g",
            token_path := path_join "./" "token.json",
            _token := none, _expiry := none } ∧
    TokenManager.construct "mars" "r" "c" "s" "g" "./" "token.json" .missing =
      .error (.keyError "mars") := by
  exact ⟨(construct_domain_resolution "EuRoPe" "r" "c" "s" "g").1
           "https://accounts.zoho.eu/" (by decide),
         (construct_domain_resolution "mars" "r" "c" "s" "g").2 (by decide)⟩

/-- C3: a refresh receiving any non-200 response raises an Exception whose
message carries the status code and the response body, and leaves the
in-memory state and the token file exactly as they were: no partial update
and no file write. -/
theorem refresh_non200_raises_and_preserves_state (st : TokenManager)
    (file : TokenFile) (resp : OAuthResponse) (now : Nat)
    (h : resp.status_code ≠ 200) :
    refresh_token_call st file resp now =
      (.error (.exception ("Failed to refresh token: "
          ++ toString resp.status_code ++ ", " ++ resp.text)), st, file) := by
  simp [refresh_token_call, h]

/-- Witness for C3 at a concrete 401 response. -/
theorem refresh_non200_witness :
    refresh_token_call stSample .missing
        { status_code := 401, access_token := none, text := "denied" } 99 =
      (.error (.exception "Failed to refresh token: 401, denied"),
       stSample, .missing) := by
  have h := refresh_non200_raises_and_preserves_state stSample .missing
      { status_code := 401, access_token := none, text := "denied" } 99
      (by decide)
  exact h.trans (by decide)

/-- C4: a refresh receiving a 200 response sets the in-memory token to the
body access_token, sets the in-memory expiry to the local time of the
refresh plus fifty minutes, and overwrites the token file so that loading
it back into a fresh manager yields the same token string and the same
expiry timestamp at the second resolution of the persisted format. -/
theorem refresh_success_sets_and_persists (st frest : TokenManager)
    (file : TokenFile) (tok text : String) (now : Nat) :
    refresh_token_call st file
        { status_code := 200, access_token := some tok, text := text } now =
      (.ok (),
       { st with _token := some tok, _expiry := some (now + fiftyMinutes) },
       .obj (some tok) (some (.ts ((now + fiftyMinutes) / usPerSec)))) ∧
    load_token_from_file
        (.obj (some tok) (some (.ts ((now + fiftyMinutes) / usPerSec)))) frest =
      (.ok (),
       { frest with _token := some tok,
                    _expiry := some ((now + fiftyMinutes) / usPerSec * usPerSec) }) ∧
    (now + fiftyMinutes) / usPerSec * usPerSec / usPerSec =
      (now + fiftyMinutes) / usPerSec := by
  refine ⟨?_, ?_, ?_⟩
  · simp [refresh_token_call, save_token_to_file]
  · simp [load_token_from_file, expiryTruthy]
  · exact Nat.mul_div_left _ (by decide)

/-- C2 evaluated at the failing input: a token file holding valid JSON whose
expiry entry is a nonempty string strptime rejects makes construction raise
ValueError, because the except clause catches only JSONDecodeError,
FileNotFoundError and KeyError; the spec and the except clause's own
comment say corrupt contents are treated as an empty cache. -/
theorem construct_malformed_expiry_raises :
    TokenManager.construct "united states" "r" "c" "s" "g" "./" "token.json"
        (.obj (some "cached") (some (.malformed "2025-13-99"))) =
      .error (.valueError ("time data " ++ "2025-13-99"
          ++ " does not match format")) := by
  decide

/-- Counterexample to C1: update_record called with an empty record id
raises nothing and issues the PUT request, returning the network's
response. -/
theorem update_record_empty_id_issues_request :
    update_record (fun _ => { status_code := 202, text := "accepted" })
        "https://zoho.example/crm/v7" "Leads" "" dSample (some "tok") =
      .ok { status_code := 202, text := "accepted" } := by
  rfl

/-- C1 as amended: identifier validation before any network call happens
only in fetch_file (record id, token, and file id when fetch_all is false)
and fetch_related_list (record id, token, related-list name), each raising
ValueError; update_record, patch_record and delete_record perform no such
check and issue their request even with an empty id and an absent token. -/
theorem identifier_validation_only_in_fetch_ops (net : Net)
    (base_url moduleName : String) (record_id file_id token name :
    Option String) (id : String) (d : RecordData) (tok : Option String)
    (fetch_all : Bool) :
    (truthy record_id = false →
      fetch_file net base_url moduleName record_id file_id token fetch_all =
        .error (.valueError "record_id is required.") ∧
      fetch_related_list net base_url moduleName record_id token name =
        .error (.valueError "record_id is required.")) ∧
    (truthy record_id = true → truthy token = false →
      fetch_file net base_url moduleName record_id file_id token fetch_all =
        .error (.valueError "token is required.") ∧
      fetch_related_list net base_url moduleName record_id token name =
        .error (.valueError "token is required.")) ∧
    (truthy record_id = true → truthy token = true → truthy file_id = false →
      fetch_file net base_url moduleName record_id file_id token false =
        .error (.valueError "file_id must be provided when fetch_all is False.")) ∧
    (truthy record_id = true → truthy token = true → truthy name = false →
      fetch_related_list net base_url moduleName record_id token name =
        .error (.valueError "name is required.")) ∧
    (update_record net base_url moduleName id d tok).isOk = true ∧
    (patch_record net base_url moduleName id d tok).isOk = true ∧
    (delete_record net base_url moduleName id tok).isOk = true := by
  refine ⟨?_, ?_, ?_, ?_, rfl, rfl, rfl⟩
  · intro h
    exact ⟨by simp [fetch_file, h], by simp [fetch_related_list, h]⟩
  · intro h1 h2
    exact ⟨by simp [fetch_file, h1, h2], by simp [fetch_related_list, h1, h2]⟩
  · intro h1 h2 h3
    simp [fetch_file, h1, h2, h3]
  · intro h1 h2 h3
    simp [fetch_related_list, h1, h2, h3]

/-- Witness for the amended C1, exercising each validation branch and each
unvalidated operation at concrete inputs. -/
theorem identifier_validation_only_in_fetch_ops_witness :
    fetch_file netSample "b" "Leads" none (some "f") (some "t") true =
      .error (.valueError "record_id is required.") ∧
    fetch_related_list netSample "b" "Leads" (some "1") (some "") (some "n") =
      .error (.valueError "token is required.") ∧
    fetch_file netSample "b" "Leads" (some "1") none (some "t") false =
      .error (.valueError "file_id must be provided when fetch_all is False.") ∧
    fetch_related_list netSample "b" "Leads" (some "1") (some "t") (some "") =
      .error (.valueError "name is required.") ∧
    (update_record netSample "b" "Leads" "" dSample none).isOk = true ∧
    (patch_record netSample "b" "Leads" "" dSample none).isOk = true ∧
    (delete_record netSample "b" "Leads" "" none).isOk = true := by
  have h1 := (identifier_validation_only_in_fetch_ops netSample "b" "Leads"
    none (some "f") (some "t") (some "n") "" dSample none true).1 (by decide)
  have h2 := (identifier_validation_only_in_fetch_ops netSample "b" "Leads"
    (some "1") (some "f") (some "") (some "n") "" dSample none true).2.1
    (by decide) (by decide)
  have h3 := (identifier_validation_only_in_fetch_ops netSample "b" "Leads"
    (some "1") none (some "t") (some "n") "" dSample none false).2.2.1
    (by decide) (by decide) (by decide)
  have h4 := (identifier_validation_only_in_fetch_ops netSample "b" "Leads"
    (some "1") none (some "t") (some "") "" dSample none false).2.2.2.1
    (by decide) (by decide) (by decide)
  have h5 := (identifier_validation_only_in_fetch_ops netSample "b" "Leads"
    (some "1") none (some "t") (some "") "" dSample none false).2.2.2.2
  exact ⟨h1.1, h2.2, h3, h4, h5⟩

/-- C8: attach_file with neither a truthy file path nor a truthy file URL
raises ValueError and issues no request; with a truthy file path it POSTs
the multipart upload to base/module/id/Attachments whatever the URL
argument is; with no truthy path but a truthy URL it POSTs the
attachmentUrl form body to the same endpoint. -/
theorem attach_file_requires_exactly_one_source (net : Net)
    (base_url moduleName record_id : String) (file_path file_url tok :
    Option String) :
    (truthy file_path = false → truthy file_url = false →
      attach_file net base_url moduleName record_id file_path file_url tok =
        .error (.valueError "Either file_path or file_url must be provided.")) ∧
    (∀ p, file_path = some p → p ≠ "" →
      attach_file net base_url moduleName record_id file_path file_url tok =
        .ok (net (mkRequest "POST"
          (base_url ++ "/" ++ moduleName ++ "/" ++ record_id ++ "/Attachments")
          none none (some [("file", p)]) tok))) ∧
    (truthy file_path = false → ∀ u, file_url = some u → u ≠ "" →
      attach_file net base_url moduleName record_id file_path file_url tok =
        .ok (net (mkRequest "POST"
          (base_url ++ "/" ++ moduleName ++ "/" ++ record_id ++ "/Attachments")
          none (some [("attachmentUrl", u)]) none tok))) := by
  refine ⟨?_, ?_, ?_⟩
  · intro h1 h2
    simp [attach_file, h1, h2]
  · intro p hp hne
    subst hp
    have h : truthy (some p) = true := by simp [truthy, hne]
    simp [attach_file, h, make_request, mkRequest, pyStr]
  · intro h1 u hu hne
    subst hu
    have h2 : truthy (some u) = true := by simp [truthy, hne]
    simp [attach_file, h1, h2, make_request, mkRequest, pyStr]

/-- Witness for C8 at concrete inputs: neither source, both sources (path
wins, URL ignored), and URL only. -/
theorem attach_file_requires_exactly_one_source_witness :
    attach_file netSample "b" "Leads" "1" none (some "") (some "t") =
      .error (.valueError "Either file_path or file_url must be provided.") ∧
    attach_file netSample "b" "Leads" "1" (some "/tmp/a.pdf")
        (some "https://x/f.pdf") (some "t") =
      .ok (netSample (mkRequest "POST" ("b" ++ "/" ++ "Leads" ++ "/" ++ "1"
        ++ "/Attachments") none none (some [("file", "/tmp/a.pdf")])
        (some "t"))) ∧
    attach_file netSample "b" "Leads" "1" none (some "https://x/f.pdf")
        (some "t") =
      .ok (netSample (mkRequest "POST" ("b" ++ "/" ++ "Leads" ++ "/" ++ "1"
        ++ "/Attachments") none (some [("attachmentUrl", "https://x/f.pdf")])
        none (some "t"))) := by
  refine ⟨?_, ?_, ?_⟩
  · exact (attach_file_requires_exactly_one_source netSample "b" "Leads" "1"
      none (some "") (some "t")).1 (by decide) (by decide)
  · exact (attach_file_requires_exactly_one_source netSample "b" "Leads" "1"
      (some "/tmp/a.pdf") (some "https://x/f.pdf") (some "t")).2.1
      "/tmp/a.pdf" rfl (by decide)
  · exact (attach_file_requires_exactly_one_source netSample "b" "Leads" "1"
      none (some "https://x/f.pdf") (some "t")).2.2 (by decide)
      "https://x/f.pdf" rfl (by decide)

/-- Helper: get_access_token enters the refresh branch exactly when the
source guard holds. -/
theorem get_access_token_refreshed_eq (st : TokenManager) (file : TokenFile)
    (resp : OAuthResponse) (now : Nat) :
    (get_access_token st file resp now).refreshed =
      (st._token.isNone || is_token_expired st now) := by
  unfold get_access_token
  by_cases h : (st._token.isNone || is_token_expired st now) = true
  · rw [if_pos h, h]
    rcases hr : refresh_token_call st file resp now with ⟨res, st1, file1⟩
    cases res <;> rfl
  · rw [if_neg h]
    simp only [Bool.not_eq_true] at h
    rw [h]

/-- C5: get_access_token triggers a refresh exactly when no token is cached
or the cached expiry is absent or has passed; and after any successful
refresh, a call (hence also a second one, the state being unchanged) at the
same instant returns the refreshed token with no further refresh. -/
theorem get_access_token_refresh_policy (st st1 : TokenManager)
    (file file1 : TokenFile) (resp resp1 : OAuthResponse) (now : Nat) :
    ((get_access_token st file resp now).refreshed = true ↔
      st._token = none ∨ st._expiry = none ∨
        ∃ e, st._expiry = some e ∧ e ≤ now) ∧
    (refresh_token_call st file resp now = (.ok (), st1, file1) →
      ∃ tok, st1._token = some tok ∧
        get_access_token st1 file1 resp1 now =
          { result := .ok (some tok), st := st1, file := file1,
            refreshed := false }) := by
  constructor
  · rw [get_access_token_refreshed_eq]
    cases he : st._expiry with
    | none => simp [is_token_expired, he, Option.isNone_iff_eq_none]
    | some e => simp [is_token_expired, he, Option.isNone_iff_eq_none]
  · intro h
    unfold refresh_token_call at h
    by_cases h200 : resp.status_code = 200
    · rw [if_pos h200] at h
      cases ha : resp.access_token with
      | none => rw [ha] at h; simp at h
      | some tok =>
        rw [ha] at h
        simp only [save_token_to_file] at h
        obtain ⟨h1, h2⟩ := Prod.mk.inj h
        obtain ⟨h2a, h2b⟩ := Prod.mk.inj h2
        refine ⟨tok, ?_, ?_⟩
        · rw [← h2a]
        · have hcond : (st1._token.isNone || is_token_expired st1 now) = false := by
            rw [← h2a]
            simp [is_token_expired, fiftyMinutes, usPerSec]
          unfold get_access_token
          rw [if_neg (by simp [hcond])]
          rw [← h2a]
    · rw [if_neg h200] at h
      simp at h

/-- Witness for C5: a concrete expired state refreshes, and the call after
the successful refresh returns the refreshed token without refreshing. -/
theorem get_access_token_refresh_policy_witness :
    ((get_access_token stSample .missing
        { status_code := 200, access_token := some "new", text := "" }
        7000000).refreshed = true) ∧
    get_access_token
        { stSample with _token := some "new",
                        _expiry := some (7000000 + fiftyMinutes) }
        (.obj (some "new") (some (.ts ((7000000 + fiftyMinutes) / usPerSec))))
        { status_code := 500, access_token := none, text := "down" }
        7000000 =
      { result := .ok (some "new"),
        st := { stSample with _token := some "new",
                              _expiry := some (7000000 + fiftyMinutes) },
        file := .obj (some "new")
          (some (.ts ((7000000 + fiftyMinutes) / usPerSec))),
        refreshed := false } := by
  constructor
  · exact (get_access_token_refresh_policy stSample stSample .missing .missing
      { status_code := 200, access_token := some "new", text := "" }
      { status_code := 200, access_token := some "new", text := "" }
      7000000).1.mpr (by right; right; exact ⟨7000000, by decide, by decide⟩)
  · obtain ⟨tok, htok, hcall⟩ := (get_access_token_refresh_policy stSample
      { stSample with _token := some "new",
                      _expiry := some (7000000 + fiftyMinutes) }
      .missing
      (.obj (some "new") (some (.ts ((7000000 + fiftyMinutes) / usPerSec))))
      { status_code := 200, access_token := some "new", text := "" }
      { status_code := 500, access_token := none, text := "down" }
      7000000).2 (by decide)
    have : tok = "new" := by
      have := htok
      simp at this
      exact this.symm
    rw [this] at hcall
    exact hcall

/-- C7: every API-client operation returns the raw response the network
gives for its planned request, whatever the status code — the only
exceptional outcomes are the pre-network validation errors of the plan —
while a refresh receiving a non-200 response raises an Exception. -/
theorem api_raw_response_only_refresh_raises (net : Net) (base_url : String)
    (op : ApiOp) (st : TokenManager) (file : TokenFile)
    (resp : OAuthResponse) (now : Nat) (h : resp.status_code ≠ 200) :
    apiRun net base_url op = (planOp base_url op).map net ∧
    (refresh_token_call st file resp now).1 =
      .error (.exception ("Failed to refresh token: "
        ++ toString resp.status_code ++ ", " ++ resp.text)) := by
  constructor
  · cases op <;>
      simp only [apiRun, planOp, create_record, read_record, fetch_module_data,
        update_record, patch_record, delete_record, attach_file, fetch_file,
        fetch_related_list, make_request, mkRequest] <;>
      (try split_ifs) <;>
      simp [Except.map]
  · simp [refresh_token_call, h]

/-- Witness for C7 at a concrete operation and a concrete 500 refresh
response. -/
theorem api_raw_response_only_refresh_raises_witness :
    apiRun netSample "b" (ApiOp.delete "Leads" "1" (some "t")) =
      (planOp "b" (ApiOp.delete "Leads" "1" (some "t"))).map netSample ∧
    (refresh_token_call stSample .missing
        { status_code := 500, access_token := none, text := "oops" } 3).1 =
      .error (.exception ("Failed to refresh token: "
        ++ toString 500 ++ ", " ++ "oops")) :=
  api_raw_response_only_refresh_raises netSample "b"
    (ApiOp.delete "Leads" "1" (some "t")) stSample .missing
    { status_code := 500, access_token := none, text := "oops" } 3
    (by decide)

/-- Helper: a refresh never changes the credential fields. -/
theorem refresh_preserves_credentials (st : TokenManager) (file : TokenFile)
    (resp : OAuthResponse) (now : Nat) :
    credentials (refresh_token_call st file resp now).2.1 = credentials st := by
  unfold refresh_token_call
  by_cases h : resp.status_code = 200
  · rw [if_pos h]
    cases resp.access_token with
    | none => rfl
    | some tok => simp [save_token_to_file, credentials]
  · rw [if_neg h]

/-- Helper: loading the token file never changes the credential fields. -/
theorem load_preserves_credentials (file : TokenFile) (st : TokenManager) :
    credentials (load_token_from_file file st).2 = credentials st := by
  cases file with
  | missing => rfl
  | invalid => rfl
  | nonObject => rfl
  | obj tok exp =>
    cases exp with
    | none => rfl
    | some e =>
      cases e with
      | ts secs => rfl
      | malformed s =>
        by_cases h : s = ""
        · simp [load_token_from_file, expiryTruthy, h, credentials]
        · simp [load_token_from_file, expiryTruthy, h, credentials]

/-- Helper: get_access_token never changes the credential fields. -/
theorem get_access_token_preserves_credentials (st : TokenManager)
    (file : TokenFile) (resp : OAuthResponse) (now : Nat) :
    credentials (get_access_token st file resp now).st = credentials st := by
  unfold get_access_token
  by_cases h : (st._token.isNone || is_token_expired st now) = true
  · rw [if_pos h]
    have hr := refresh_preserves_credentials st file resp now
    rcases he : refresh_token_call st file resp now with ⟨res, st1, file1⟩
    rw [he] at hr
    cases res <;> simpa using hr
  · rw [if_neg h]

/-- Helper: one step of any operation preserves the credential fields. -/
theorem tmStep_preserves_credentials (p : TokenManager × TokenFile)
    (op : TMOp) :
    credentials (tmStep p op).1 = credentials p.1 := by
  rcases p with ⟨st, file⟩
  cases op with
  | getToken resp now =>
    exact get_access_token_preserves_credentials st file resp now
  | refresh resp now => exact refresh_preserves_credentials st file resp now
  | checkExpired now => rfl
  | load => exact load_preserves_credentials file st
  | save => rfl

/-- C9: over every sequence of TokenManager operations after construction —
token retrievals, refreshes, expiry checks, file loads and saves — the
refresh_token, client_id, client_secret, grant_type and resolved domain_url
of the manager never change. -/
theorem credentials_never_mutated (ops : List TMOp) (st : TokenManager)
    (file : TokenFile) :
    (ops.foldl tmStep (st, file)).1.domain_url = st.domain_url ∧
    (ops.foldl tmStep (st, file)).1.refresh_token = st.refresh_token ∧
    (ops.foldl tmStep (st, file)).1.client_id = st.client_id ∧
    (ops.foldl tmStep (st, file)).1.client_secret = st.client_secret ∧
    (ops.foldl tmStep (st, file)).1.grant_type = st.grant_type := by
  have key : ∀ (l : List TMOp) (p : TokenManager × TokenFile),
      credentials (l.foldl tmStep p).1 = credentials p.1 := by
    intro l
    induction l with
    | nil => intro p; rfl
    | cons op rest ih =>
      intro p
      rw [List.foldl_cons, ih]
      exact tmStep_preserves_credentials p op
  have h := key ops (st, file)
  simp only [credentials, Prod.mk.injEq] at h
  exact ⟨h.1, h.2.1, h.2.2.1, h.2.2.2.1, h.2.2.2.2⟩

end PyZohoCrm
